import Mathlib

/-!
Verification of the MCPTool-Profiling alpha/profile pipeline.

The development shallowly embeds the pure numeric core of the two Phase-3
scripts:

* `3_calculate_alpha.py` — the roofline/sigmoid model:
  `calculate_alpha_sigmoid`, tier classification and spec averaging in
  `load_node_specs`, the relative-cost estimate `estimate_p_comp_from_oi`,
  and the per-tool averaging in `main`.
* `3_calculate_alpha_new.py` — the time-ratio model: `calculate_alpha`
  and the per-node averaging in `generate_profile`.

Machine floats are modelled as exact numbers: `ℝ` where the code takes
logarithms and exponentials, `ℚ` where it only does field arithmetic and
comparisons.  Python's `round(x, 3)` is modelled as rounding to the nearest
multiple of `1/1000` (examples below stay away from ties, where Python's
round-half-even and the model's rounding of halves could differ).
-/

/-- The logistic function `1 / (1 + e^(-x))`, as used inline in
`calculate_alpha_sigmoid` (`3_calculate_alpha.py`, line 56). -/
noncomputable def sigmoid (x : ℝ) : ℝ := 1 / (1 + Real.exp (-x))

/-- Embedding of `calculate_alpha_sigmoid(oi, ridge_point, k)`
(`3_calculate_alpha.py`, lines 33-58).  `None` arguments are `Option.none`;
the guard `oi is None or ridge_point is None or ridge_point == 0` returns
the default `0.5`, after which both inputs are floored to `1e-6` and the
sigmoid of `k * (log oi - log ridge_point)` is returned. -/
noncomputable def calculate_alpha_sigmoid (oi ridge_point : Option ℝ) (k : ℝ) : ℝ :=
  match oi, ridge_point with
  | none, _ => 1/2
  | some _, none => 1/2
  | some o, some r =>
    if r = 0 then 1/2
    else
      sigmoid (k * (Real.log (max o (1/1000000)) - Real.log (max r (1/1000000))))

/-- The three node classes used by the tier classifier. -/
inductive NodeType
  | DEVICE
  | EDGE
  | CLOUD
deriving DecidableEq, Repr

/-- A raw node record as read from `node_*.yaml`: a hostname and the
fields used by the classifier and the averaging step; absent fields are
`none` (the code reads them with `.get(key, 0)`). -/
structure NodeRecord where
  hostname : String
  peak_flops : Option ℚ
  memory_bw : Option ℚ
  ridge_point : Option ℚ
deriving DecidableEq

/-- The sort key of `load_node_specs`: `x[1].get('peak_flops', 0)`
(`3_calculate_alpha.py`, line 155). -/
def sortKey (n : NodeRecord) : ℚ := n.peak_flops.getD 0

/-- The stable ascending sort of `sorted(nodes.items(), key=...)`
(`3_calculate_alpha.py`, line 155). -/
def sortNodes (ns : List NodeRecord) : List NodeRecord :=
  ns.mergeSort (fun a b => decide (sortKey a ≤ sortKey b))

/-- Tier assignment over the sorted list (`3_calculate_alpha.py`,
lines 157-166): with three or more nodes the first is `DEVICE`, the last
`CLOUD` and the interior `EDGE`; with two nodes `DEVICE, EDGE`; with a
single node `DEVICE`. -/
def assignTypes (s : List NodeRecord) : List (String × NodeType) :=
  if 3 ≤ s.length then
    s.enum.map (fun p =>
      (p.2.hostname,
        if p.1 = 0 then NodeType.DEVICE
        else if p.1 = s.length - 1 then NodeType.CLOUD
        else NodeType.EDGE))
  else if s.length = 2 then
    s.enum.map (fun p => (p.2.hostname, if p.1 = 0 then NodeType.DEVICE else NodeType.EDGE))
  else if s.length = 1 then
    s.enum.map (fun p => (p.2.hostname, NodeType.DEVICE))
  else []

/-- The classification computed by `load_node_specs`: sort by
`peak_flops` (missing = 0), then bucket by position. -/
def classifyTiers (ns : List NodeRecord) : List (String × NodeType) :=
  assignTypes (sortNodes ns)

/-- Averaged per-tier spec, as produced by `load_node_specs`
(`3_calculate_alpha.py`, lines 184-190). -/
structure AveragedSpec where
  peak_flops : ℚ
  memory_bw : ℚ
  ridge_point : ℚ
deriving DecidableEq

/-- The averaging step of `load_node_specs` (`3_calculate_alpha.py`,
lines 184-190): each field of the tier spec is the unweighted mean of the
member nodes' fields, read with default `0`. -/
def averageSpecs (l : List NodeRecord) : AveragedSpec :=
  { peak_flops := (l.map (fun s => s.peak_flops.getD 0)).sum / l.length
    memory_bw := (l.map (fun s => s.memory_bw.getD 0)).sum / l.length
    ridge_point := (l.map (fun s => s.ridge_point.getD 0)).sum / l.length }

/-- The alternative the spec rules out: recomputing the averaged tier's
ridge point as (mean peak rate) / (mean memory bandwidth). -/
def ridgeOfAveragedRatio (l : List NodeRecord) : ℚ :=
  (averageSpecs l).peak_flops / (averageSpecs l).memory_bw

/-- Embedding of `calculate_alpha(t_exec, input_size, output_size,
bandwidth_mbps)` (`3_calculate_alpha_new.py`, lines 86-115): the
time-ratio model over exact rationals. -/
def calculate_alpha (t_exec input_size output_size bandwidth_mbps : ℚ) : ℚ :=
  let bandwidth_bytes_per_sec := bandwidth_mbps * 1000000 / 8
  let total_bytes := input_size + output_size
  let t_comm_ref := if bandwidth_bytes_per_sec > 0 then total_bytes / bandwidth_bytes_per_sec else 0
  if t_exec + t_comm_ref = 0 then 1/2
  else min 1 (max 0 (t_exec / (t_exec + t_comm_ref)))

/-- The per-node call site in `generate_profile`
(`3_calculate_alpha_new.py`, lines 143 and 149): a node record with no
`network_bandwidth_mbps` field falls back to `100` Mbps. -/
def nodeAlpha (t_exec input_size output_size : ℚ) (bandwidth_mbps : Option ℚ) : ℚ :=
  calculate_alpha t_exec input_size output_size (bandwidth_mbps.getD 100)

/-- Rounding to three decimal places, the model of Python's
`round(x, 3)` on exact rationals (used at `3_calculate_alpha.py`,
lines 339 and 351, and `3_calculate_alpha_new.py`, lines 151 and 174). -/
def round3 (q : ℚ) : ℚ := (round (q * 1000) : ℤ) / 1000

/-- Rounding to three decimal places over the reals, for the sigmoid
model's per-tier alphas. -/
noncomputable def round3R (x : ℝ) : ℝ := (round (x * 1000) : ℤ) / 1000

/-- Averaged per-tier spec over `ℝ` (the form consumed by the sigmoid
model and by `estimate_p_comp_from_oi`). -/
structure TierSpec where
  peak_flops : ℝ
  memory_bw : ℝ
  ridge_point : ℝ

/-- The relative-execution-time table built by `estimate_p_comp_from_oi`
(`3_calculate_alpha.py`, lines 97-112): tiers whose ridge point is zero
are skipped; each remaining tier contributes
`alpha / peak_flops + (1 - alpha) / memory_bw`. -/
noncomputable def execTimes (oi : Option ℝ) (node_specs : List (NodeType × TierSpec)) :
    List (NodeType × ℝ) :=
  node_specs.filterMap (fun p =>
    if p.2.ridge_point = 0 then none
    else
      some (p.1,
        calculate_alpha_sigmoid oi (some p.2.ridge_point) 2 / p.2.peak_flops
          + (1 - calculate_alpha_sigmoid oi (some p.2.ridge_point) 2) / p.2.memory_bw))

/-- Embedding of `estimate_p_comp_from_oi(oi, node_specs)`
(`3_calculate_alpha.py`, lines 82-128): min-max normalization of the
relative execution times, with the documented defaults when the table is
empty and the `0.5`-everywhere convention when max equals min. -/
noncomputable def estimate_p_comp_from_oi (oi : Option ℝ)
    (node_specs : List (NodeType × TierSpec)) : List (NodeType × ℝ) :=
  match execTimes oi node_specs with
  | [] => [(NodeType.DEVICE, 1), (NodeType.EDGE, 1/2), (NodeType.CLOUD, 0)]
  | e :: es =>
    let minT := es.foldl (fun a p => min a p.2) e.2
    let maxT := es.foldl (fun a p => max a p.2) e.2
    if maxT = minT then (e :: es).map (fun p => (p.1, 1/2))
    else (e :: es).map (fun p => (p.1, (p.2 - minT) / (maxT - minT)))

/-- The per-tier alpha table of the roofline profile, as built in `main`
(`3_calculate_alpha.py`, lines 336-339): one sigmoid alpha per tier,
rounded to three decimals. -/
noncomputable def roofline_tier_alphas (oi : ℝ) (node_specs : List (NodeType × TierSpec)) :
    List (NodeType × ℝ) :=
  node_specs.map (fun p =>
    (p.1, round3R (calculate_alpha_sigmoid (some oi) (some p.2.ridge_point) 2)))

/-- The reported roofline-profile alpha (`3_calculate_alpha.py`,
lines 341-342 and 351): the mean of the per-tier (rounded) alphas,
itself rounded to three decimals. -/
noncomputable def roofline_profile_alpha (oi : ℝ) (node_specs : List (NodeType × TierSpec)) : ℝ :=
  round3R (((roofline_tier_alphas oi node_specs).map Prod.snd).sum
    / ((roofline_tier_alphas oi node_specs).length : ℝ))

/-- One execution-time measurement for a node, as consumed by
`generate_profile` (`3_calculate_alpha_new.py`, lines 137-149):
execution time, payload sizes, and the node's optional
`network_bandwidth_mbps` field. -/
structure Measurement where
  t_exec : ℚ
  input_size : ℚ
  output_size : ℚ
  bandwidth_mbps : Option ℚ
deriving DecidableEq

/-- The per-node alpha table of the time-ratio profile
(`3_calculate_alpha_new.py`, lines 143-151): `calculate_alpha` with the
100-Mbps bandwidth fallback, rounded to three decimals. -/
def node_alphas (ms : List Measurement) : List ℚ :=
  ms.map (fun m => round3 (nodeAlpha m.t_exec m.input_size m.output_size m.bandwidth_mbps))

/-- The reported time-ratio-profile alpha (`3_calculate_alpha_new.py`,
lines 161 and 174): the mean of the per-node (rounded) alphas, itself
rounded to three decimals. -/
def profile_alpha (ms : List Measurement) : ℚ :=
  round3 ((node_alphas ms).sum / ((node_alphas ms).length : ℚ))

/-! ## Basic properties of the sigmoid -/

lemma sigmoid_pos (x : ℝ) : 0 < sigmoid x := by
  unfold sigmoid
  positivity

lemma one_add_exp_pos (x : ℝ) : 0 < 1 + Real.exp x := by
  have := Real.exp_pos x
  linarith

lemma sigmoid_lt_one (x : ℝ) : sigmoid x < 1 := by
  unfold sigmoid
  rw [div_lt_one (one_add_exp_pos (-x))]
  have := Real.exp_pos (-x)
  linarith

lemma sigmoid_lt_sigmoid {a b : ℝ} (h : a < b) : sigmoid a < sigmoid b := by
  unfold sigmoid
  exact one_div_lt_one_div_of_lt (one_add_exp_pos (-b))
    (by have := Real.exp_lt_exp.mpr (neg_lt_neg h); linarith)

lemma sigmoid_zero : sigmoid 0 = 1/2 := by
  unfold sigmoid
  rw [neg_zero, Real.exp_zero]
  norm_num

lemma exp_neg_two_log {x : ℝ} (hx : 0 < x) : Real.exp (-(2 * Real.log x)) = (x * x)⁻¹ := by
  rw [two_mul, Real.exp_neg, Real.exp_add, Real.exp_log hx]

lemma sigmoid_two_log {x : ℝ} (hx : 0 < x) : sigmoid (2 * Real.log x) = x * x / (x * x + 1) := by
  unfold sigmoid
  rw [exp_neg_two_log hx]
  have hxx : (0:ℝ) < x * x := mul_pos hx hx
  field_simp

lemma calculate_alpha_sigmoid_some {o r : ℝ} (hr : r ≠ 0) (k : ℝ) :
    calculate_alpha_sigmoid (some o) (some r) k
      = sigmoid (k * (Real.log (max o (1/1000000)) - Real.log (max r (1/1000000)))) := by
  simp [calculate_alpha_sigmoid, hr]

lemma calculate_alpha_sigmoid_one_tenth :
    calculate_alpha_sigmoid (some 1) (some (1/10)) 2 = 100/101 := by
  rw [calculate_alpha_sigmoid_some (by norm_num : (1/10 : ℝ) ≠ 0) 2]
  rw [max_eq_left (by norm_num : (1/1000000 : ℝ) ≤ 1),
      max_eq_left (by norm_num : (1/1000000 : ℝ) ≤ 1/10),
      Real.log_one, one_div, Real.log_inv]
  have h : (2 : ℝ) * (0 - -Real.log 10) = 2 * Real.log 10 := by ring
  rw [h, sigmoid_two_log (by norm_num : (0:ℝ) < 10)]
  norm_num

lemma calculate_alpha_sigmoid_one_one :
    calculate_alpha_sigmoid (some 1) (some 1) 2 = 1/2 := by
  rw [calculate_alpha_sigmoid_some (by norm_num : (1 : ℝ) ≠ 0) 2]
  rw [sub_self, mul_zero, sigmoid_zero]

/-- C1 counterexample: in the end-to-end scenario (tier ridge points 0.1
and 1.0, tool OI 1.0, k = 2) the tier-A alpha is `100/101 ≈ 0.990`, which
is more than `0.01` away from the claimed `0.978`, and the mean of the two
tier alphas is more than `0.005` away from the claimed `0.739`. -/
theorem C1_counterexample :
    calculate_alpha_sigmoid (some 1) (some (1/10)) 2 = 100/101 ∧
    calculate_alpha_sigmoid (some 1) (some 1) 2 = 1/2 ∧
    1/100 < |(100:ℝ)/101 - 978/1000| ∧
    1/200 < |((100:ℝ)/101 + 1/2)/2 - 739/1000| := by
  refine ⟨calculate_alpha_sigmoid_one_tenth, calculate_alpha_sigmoid_one_one, ?_, ?_⟩
  · rw [abs_of_pos (by norm_num)]
    norm_num
  · rw [abs_of_pos (by norm_num)]
    norm_num

/-- C1 (amended): in the end-to-end scenario the per-tier alphas computed
by `calculate_alpha_sigmoid` (k = 2) are `100/101 ≈ 0.990` (within 0.001
of 0.990) and exactly `0.5`, and the mean of the two is `301/404 ≈ 0.745`
(within 0.001 of 0.745). -/
theorem C1_scenario_alphas :
    calculate_alpha_sigmoid (some 1) (some (1/10)) 2 = 100/101 ∧
    calculate_alpha_sigmoid (some 1) (some 1) 2 = 1/2 ∧
    (calculate_alpha_sigmoid (some 1) (some (1/10)) 2
      + calculate_alpha_sigmoid (some 1) (some 1) 2) / 2 = 301/404 ∧
    |(100:ℝ)/101 - 990/1000| < 1/1000 ∧
    |(301:ℝ)/404 - 745/1000| < 1/1000 := by
  refine ⟨calculate_alpha_sigmoid_one_tenth, calculate_alpha_sigmoid_one_one, ?_, ?_, ?_⟩
  · rw [calculate_alpha_sigmoid_one_tenth, calculate_alpha_sigmoid_one_one]
    norm_num
  · rw [abs_of_pos (by norm_num)]
    norm_num
  · rw [abs_of_pos (by norm_num)]
    norm_num

/-- C2 counterexample: for the positive OI `1` and the exactly-zero ridge
point, the code returns the neutral default `0.5` (the `ridge_point == 0`
guard fires before any flooring), whereas the claim's formula
`sigmoid(2*(ln(max(OI,1e-6)) - ln(1e-6)))` evaluates to
`10^12/(10^12+1) ≠ 0.5`. -/
theorem C2_counterexample :
    calculate_alpha_sigmoid (some 1) (some 0) 2 = 1/2 ∧
    sigmoid (2 * (Real.log (max (1:ℝ) (1/1000000)) - Real.log ((1:ℝ)/1000000))) ≠ 1/2 := by
  constructor
  · simp [calculate_alpha_sigmoid]
  · rw [max_eq_left (by norm_num : (1/1000000 : ℝ) ≤ 1), Real.log_one,
        one_div, Real.log_inv]
    have h : (2 : ℝ) * (0 - -Real.log 1000000) = 2 * Real.log 1000000 := by ring
    rw [h, sigmoid_two_log (by norm_num : (0:ℝ) < 1000000)]
    norm_num

/-- C2 (amended): the null/zero guard of `calculate_alpha_sigmoid` runs
before the `1e-6` flooring, so a ridge point of exactly zero (like a null
OI or ridge point) returns the neutral `0.5` — a reachable case, not an
unreachable one; only for a nonzero ridge point are both inputs floored
to `1e-6` (so the logarithm is never applied to a non-positive number),
and for positive OI with negative ridge point the result is
`sigmoid(2*(ln(max(OI,1e-6)) - ln(1e-6)))`. -/
theorem C2_default_before_floor (o r : ℝ) :
    calculate_alpha_sigmoid (some o) (some 0) 2 = 1/2 ∧
    calculate_alpha_sigmoid none (some r) 2 = 1/2 ∧
    calculate_alpha_sigmoid (some o) none 2 = 1/2 ∧
    (r ≠ 0 → 0 < max o (1/1000000) ∧ 0 < max r (1/1000000) ∧
      calculate_alpha_sigmoid (some o) (some r) 2
        = sigmoid (2 * (Real.log (max o (1/1000000)) - Real.log (max r (1/1000000))))) ∧
    (r < 0 → calculate_alpha_sigmoid (some o) (some r) 2
        = sigmoid (2 * (Real.log (max o (1/1000000)) - Real.log ((1:ℝ)/1000000)))) := by
  refine ⟨by simp [calculate_alpha_sigmoid], rfl, rfl, ?_, ?_⟩
  · intro hr
    refine ⟨lt_of_lt_of_le (by norm_num) (le_max_right o (1/1000000)),
            lt_of_lt_of_le (by norm_num) (le_max_right r (1/1000000)),
            calculate_alpha_sigmoid_some hr 2⟩
  · intro hr
    rw [calculate_alpha_sigmoid_some (ne_of_lt hr) 2,
        max_eq_right (le_of_lt (lt_trans hr (by norm_num)))]

/-- C2 witness: at OI = 1 and ridge point = -1 the floored-ridge formula
branch of `C2_default_before_floor` applies. -/
theorem C2_witness :
    calculate_alpha_sigmoid (some 1) (some (-1)) 2
      = sigmoid (2 * (Real.log (max 1 (1/1000000)) - Real.log ((1:ℝ)/1000000))) :=
  (C2_default_before_floor 1 (-1)).2.2.2.2 (by norm_num)

/-- C3 counterexample: strict monotonicity in OI fails on the full
positive domain — the two distinct positive OI values `10^-9 < 10^-8`
are both floored to `10^-6`, so the alphas coincide. -/
theorem C3_counterexample :
    (1/1000000000 : ℝ) < 1/100000000 ∧
    calculate_alpha_sigmoid (some (1/1000000000)) (some 1) 2
      = calculate_alpha_sigmoid (some (1/100000000)) (some 1) 2 := by
  refine ⟨by norm_num, ?_⟩
  rw [calculate_alpha_sigmoid_some (one_ne_zero) 2,
      calculate_alpha_sigmoid_some (one_ne_zero) 2,
      max_eq_right (by norm_num : (1/1000000000 : ℝ) ≤ 1/1000000),
      max_eq_right (by norm_num : (1/100000000 : ℝ) ≤ 1/1000000)]

/-- C3 (amended): for every OI > 0 and ridge point > 0 the sigmoid alpha
lies strictly inside (0, 1); it is strictly increasing in OI once OI is at
or above the `1e-6` floor (below the floor the argument is clamped and
the value is constant, as the counterexample shows), and strictly
decreasing in the ridge point once the ridge point is at or above the
floor. -/
theorem C3_range_and_mono :
    (∀ o r : ℝ, 0 < o → 0 < r →
      0 < calculate_alpha_sigmoid (some o) (some r) 2 ∧
      calculate_alpha_sigmoid (some o) (some r) 2 < 1) ∧
    (∀ o₁ o₂ r : ℝ, 1/1000000 ≤ o₁ → o₁ < o₂ → 0 < r →
      calculate_alpha_sigmoid (some o₁) (some r) 2
        < calculate_alpha_sigmoid (some o₂) (some r) 2) ∧
    (∀ o r₁ r₂ : ℝ, 0 < o → 1/1000000 ≤ r₁ → r₁ < r₂ →
      calculate_alpha_sigmoid (some o) (some r₂) 2
        < calculate_alpha_sigmoid (some o) (some r₁) 2) := by
  refine ⟨?_, ?_, ?_⟩
  · intro o r ho hr
    rw [calculate_alpha_sigmoid_some (ne_of_gt hr) 2]
    exact ⟨sigmoid_pos _, sigmoid_lt_one _⟩
  · intro o₁ o₂ r h₁ h₁₂ hr
    rw [calculate_alpha_sigmoid_some (ne_of_gt hr) 2,
        calculate_alpha_sigmoid_some (ne_of_gt hr) 2,
        max_eq_left h₁, max_eq_left (le_trans h₁ (le_of_lt h₁₂))]
    apply sigmoid_lt_sigmoid
    have hlog := Real.log_lt_log (lt_of_lt_of_le (by norm_num) h₁) h₁₂
    linarith
  · intro o r₁ r₂ ho h₁ h₁₂
    rw [calculate_alpha_sigmoid_some (ne_of_gt (lt_of_lt_of_le (lt_of_lt_of_le (by norm_num) h₁) (le_of_lt h₁₂))) 2,
        calculate_alpha_sigmoid_some (ne_of_gt (lt_of_lt_of_le (by norm_num) h₁)) 2,
        max_eq_left h₁, max_eq_left (le_trans h₁ (le_of_lt h₁₂))]
    apply sigmoid_lt_sigmoid
    have hlog := Real.log_lt_log (lt_of_lt_of_le (by norm_num) h₁) h₁₂
    linarith

/-- C3 witness: the three parts of `C3_range_and_mono` instantiated at
concrete inputs 1, 2. -/
theorem C3_witness :
    (0 < calculate_alpha_sigmoid (some 1) (some 1) 2 ∧
     calculate_alpha_sigmoid (some 1) (some 1) 2 < 1) ∧
    calculate_alpha_sigmoid (some 1) (some 1) 2 < calculate_alpha_sigmoid (some 2) (some 1) 2 ∧
    calculate_alpha_sigmoid (some 1) (some 2) 2 < calculate_alpha_sigmoid (some 1) (some 1) 2 :=
  ⟨C3_range_and_mono.1 1 1 (by norm_num) (by norm_num),
   C3_range_and_mono.2.1 1 2 1 (by norm_num) (by norm_num) (by norm_num),
   C3_range_and_mono.2.2 1 1 2 (by norm_num) (by norm_num) (by norm_num)⟩

/-- C10: `calculate_alpha_sigmoid` is total and range-bounded: on every
input (null, zero or negative included) the result lies in [0, 1]; it is
exactly `0.5` when either argument is null or the ridge point is zero;
otherwise it lies strictly inside (0, 1), and both floored logarithm
arguments are strictly positive (so the logarithm is never taken of a
non-positive number). -/
theorem C10_total_range (oi ridge : Option ℝ) :
    (0 ≤ calculate_alpha_sigmoid oi ridge 2 ∧ calculate_alpha_sigmoid oi ridge 2 ≤ 1) ∧
    (oi = none ∨ ridge = none ∨ ridge = some 0 → calculate_alpha_sigmoid oi ridge 2 = 1/2) ∧
    (∀ o r : ℝ, oi = some o → ridge = some r → r ≠ 0 →
      (0 < calculate_alpha_sigmoid oi ridge 2 ∧ calculate_alpha_sigmoid oi ridge 2 < 1) ∧
      0 < max o (1/1000000) ∧ 0 < max r (1/1000000)) := by
  refine ⟨?_, ?_, ?_⟩
  · rcases oi with _ | o
    · exact ⟨by norm_num [calculate_alpha_sigmoid], by norm_num [calculate_alpha_sigmoid]⟩
    · rcases ridge with _ | r
      · exact ⟨by norm_num [calculate_alpha_sigmoid], by norm_num [calculate_alpha_sigmoid]⟩
      · by_cases hr : r = 0
        · subst hr
          exact ⟨by norm_num [calculate_alpha_sigmoid], by norm_num [calculate_alpha_sigmoid]⟩
        · rw [calculate_alpha_sigmoid_some hr 2]
          exact ⟨le_of_lt (sigmoid_pos _), le_of_lt (sigmoid_lt_one _)⟩
  · intro h
    rcases h with h | h | h
    · subst h
      rfl
    · subst h
      rcases oi with _ | o <;> rfl
    · subst h
      rcases oi with _ | o
      · rfl
      · simp [calculate_alpha_sigmoid]
  · intro o r ho hr hrne
    subst ho
    subst hr
    rw [calculate_alpha_sigmoid_some hrne 2]
    exact ⟨⟨sigmoid_pos _, sigmoid_lt_one _⟩,
      lt_of_lt_of_le (by norm_num) (le_max_right o (1/1000000)),
      lt_of_lt_of_le (by norm_num) (le_max_right r (1/1000000))⟩

/-- C10 witness: `C10_total_range` evaluated at a zero ridge point (the
neutral default) and at the positive pair (2, 1) (the open-interval
case). -/
theorem C10_witness :
    calculate_alpha_sigmoid (some 1) (some 0) 2 = 1/2 ∧
    0 < calculate_alpha_sigmoid (some 2) (some 1) 2 ∧
    calculate_alpha_sigmoid (some 2) (some 1) 2 < 1 :=
  ⟨(C10_total_range (some 1) (some 0)).2.1 (Or.inr (Or.inr rfl)),
   ((C10_total_range (some 2) (some 1)).2.2 2 1 rfl rfl one_ne_zero).1.1,
   ((C10_total_range (some 2) (some 1)).2.2 2 1 rfl rfl one_ne_zero).1.2⟩

/-! ## Tier classification (C4) -/

lemma sortNodes_trans : ∀ (a b c : NodeRecord),
    (fun a b => decide (sortKey a ≤ sortKey b)) a b →
    (fun a b => decide (sortKey a ≤ sortKey b)) b c →
    (fun a b => decide (sortKey a ≤ sortKey b)) a c := by
  intro a b c hab hbc
  simp only [decide_eq_true_eq] at *
  exact le_trans hab hbc

lemma sortNodes_total : ∀ (a b : NodeRecord),
    ((fun a b => decide (sortKey a ≤ sortKey b)) a b
      || (fun a b => decide (sortKey a ≤ sortKey b)) b a) := by
  intro a b
  simpa using le_total (sortKey a) (sortKey b)

lemma sortNodes_length (ns : List NodeRecord) : (sortNodes ns).length = ns.length :=
  (List.mergeSort_perm ns _).length_eq

lemma classifyTiers_getElem (ns : List NodeRecord) (i : ℕ) :
    (classifyTiers ns)[i]? = ((sortNodes ns)[i]?).map (fun nd =>
      (nd.hostname,
        if 3 ≤ ns.length then
          (if i = 0 then NodeType.DEVICE
           else if i = ns.length - 1 then NodeType.CLOUD
           else NodeType.EDGE)
        else if ns.length = 2 then
          (if i = 0 then NodeType.DEVICE else NodeType.EDGE)
        else NodeType.DEVICE)) := by
  unfold classifyTiers assignTypes
  have hlen := sortNodes_length ns
  rw [hlen]
  by_cases h3 : 3 ≤ ns.length
  · rw [if_pos h3]
    cases h : (sortNodes ns)[i]? with
    | none =>
      have : (sortNodes ns).enum[i]? = none := by
        simp_all [List.getElem?_eq_none_iff]
      simp [this, h]
    | some nd =>
      have : (sortNodes ns).enum[i]? = some (i, nd) := by
        simp [List.getElem?_enum, h]
      simp [List.getElem?_map, this, h, hlen, h3]
  · rw [if_neg h3]
    by_cases h2 : ns.length = 2
    · rw [if_pos h2]
      cases h : (sortNodes ns)[i]? with
      | none =>
        have : (sortNodes ns).enum[i]? = none := by
          simp_all [List.getElem?_eq_none_iff]
        simp [this, h, h2, h3]
      | some nd =>
        have : (sortNodes ns).enum[i]? = some (i, nd) := by
          simp [List.getElem?_enum, h]
        simp [List.getElem?_map, this, h, h2, h3]
    · rw [if_neg h2]
      by_cases h1 : ns.length = 1
      · rw [if_pos h1]
        cases h : (sortNodes ns)[i]? with
        | none =>
          have : (sortNodes ns).enum[i]? = none := by
            simp_all [List.getElem?_eq_none_iff]
          simp [this, h, h1, h2, h3]
        | some nd =>
          have : (sortNodes ns).enum[i]? = some (i, nd) := by
            simp [List.getElem?_enum, h]
          simp [List.getElem?_map, this, h, h1, h2, h3]
      · rw [if_neg h1]
        have hz : ns.length = 0 := by omega
        have hnone : (sortNodes ns)[i]? = none := by
          simp [List.getElem?_eq_none_iff, hlen, hz]
        simp [hnone, h3, h2, h1]

/-- The three-node example of the claim: input order a, b, c with compute
rates 10, 50, 30. -/
def demoNodes : List NodeRecord :=
  [⟨"a", some 10, some 100, some (1/10)⟩,
   ⟨"b", some 50, some 100, some (1/2)⟩,
   ⟨"c", some 30, some 100, some (3/10)⟩]

unseal List.mergeSort List.merge in
/-- C4: the tier classifier stable-sorts the nodes ascending by
`peak_flops` (missing values count as 0: `sortKey` of a record with no
rate is 0) and buckets by position in the sorted order — with ≥ 3 nodes
the first is DEVICE (low), the last CLOUD (high) and the interior EDGE
(mid); with 2 nodes DEVICE then EDGE; with 1 node DEVICE.  On the
concrete rates [10, 50, 30] given in that input order, hostnames a, b, c
map to DEVICE, CLOUD and EDGE respectively, i.e. by value and not by
input position. -/
theorem C4_tier_classification :
    (∀ ns : List NodeRecord, ns ≠ [] →
      (sortNodes ns).Pairwise (fun a b => sortKey a ≤ sortKey b) ∧
      (sortNodes ns).Perm ns ∧
      (∀ c : List NodeRecord,
        c.Pairwise (fun a b => sortKey a ≤ sortKey b) → c.Sublist ns →
          c.Sublist (sortNodes ns)) ∧
      (∀ i : ℕ, (classifyTiers ns)[i]? = ((sortNodes ns)[i]?).map (fun nd =>
        (nd.hostname,
          if 3 ≤ ns.length then
            (if i = 0 then NodeType.DEVICE
             else if i = ns.length - 1 then NodeType.CLOUD
             else NodeType.EDGE)
          else if ns.length = 2 then
            (if i = 0 then NodeType.DEVICE else NodeType.EDGE)
          else NodeType.DEVICE)))) ∧
    (∀ h : String, ∀ bw rp : Option ℚ, sortKey ⟨h, none, bw, rp⟩ = 0) ∧
    (classifyTiers demoNodes).lookup "a" = some NodeType.DEVICE ∧
    (classifyTiers demoNodes).lookup "b" = some NodeType.CLOUD ∧
    (classifyTiers demoNodes).lookup "c" = some NodeType.EDGE := by
  refine ⟨?_, fun h bw rp => rfl, by decide, by decide, by decide⟩
  intro ns hns
  refine ⟨?_, List.mergeSort_perm ns _, ?_, classifyTiers_getElem ns⟩
  · exact (List.sorted_mergeSort sortNodes_trans sortNodes_total ns).imp
      (fun hab => of_decide_eq_true hab)
  · intro c hc hsub
    exact List.sublist_mergeSort sortNodes_trans sortNodes_total
      (hc.imp (fun hab => decide_eq_true hab)) hsub

/-- C4 witness: the general part of `C4_tier_classification` applied to
the three-node example. -/
theorem C4_witness :
    (sortNodes demoNodes).Perm demoNodes ∧
    (classifyTiers demoNodes)[0]? = ((sortNodes demoNodes)[0]?).map (fun nd =>
      (nd.hostname,
        if 3 ≤ demoNodes.length then
          (if 0 = 0 then NodeType.DEVICE
           else if 0 = demoNodes.length - 1 then NodeType.CLOUD
           else NodeType.EDGE)
        else if demoNodes.length = 2 then
          (if 0 = 0 then NodeType.DEVICE else NodeType.EDGE)
        else NodeType.DEVICE)) :=
  ⟨(C4_tier_classification.1 demoNodes (by decide)).2.1,
   (C4_tier_classification.1 demoNodes (by decide)).2.2.2 0⟩

/-- Two nodes with asymmetric specs: mean of the per-node ridge points is
`(0.1 + 10)/2 = 5.05`, while the ratio of averaged rate to averaged
bandwidth is `55/55 = 1`. -/
def demoAsym : List NodeRecord :=
  [⟨"x", some 10, some 100, some (1/10)⟩,
   ⟨"y", some 100, some 10, some 10⟩]

/-- C7: the averaged tier spec's ridge point is the unweighted arithmetic
mean of the member nodes' ridge points (with missing values read as 0),
and on an asymmetric concrete tier this differs from the ratio of the
averaged peak rate to the averaged bandwidth (5.05 versus 1). -/
theorem C7_averaged_ridge :
    (∀ l : List NodeRecord, l ≠ [] →
      (averageSpecs l).ridge_point
        = (l.map (fun s => s.ridge_point.getD 0)).sum / l.length) ∧
    (averageSpecs demoAsym).ridge_point = 101/20 ∧
    ridgeOfAveragedRatio demoAsym = 1 ∧
    (averageSpecs demoAsym).ridge_point ≠ ridgeOfAveragedRatio demoAsym := by
  refine ⟨fun l _ => rfl, ?_, ?_, ?_⟩ <;>
    norm_num [averageSpecs, ridgeOfAveragedRatio, demoAsym]

/-- C7 witness: the mean formula applied to the concrete asymmetric
tier. -/
theorem C7_witness :
    (averageSpecs demoAsym).ridge_point
      = (demoAsym.map (fun s => s.ridge_point.getD 0)).sum / demoAsym.length :=
  C7_averaged_ridge.1 demoAsym (by decide)

/-- C5 counterexample: for a node with a *missing* bandwidth field the
pipeline does not set `t_comm_ref = 0` (which would force alpha = 1 here);
it falls back to 100 Mbps, so with `t_exec = 1` s and a 12.5 MB input the
computed alpha is `0.5`, not `1`. -/
theorem C5_counterexample :
    nodeAlpha 1 12500000 0 none = 1/2 ∧ (1/2 : ℚ) ≠ 1 := by
  constructor
  · norm_num [nodeAlpha, calculate_alpha]
  · norm_num

/-- C5 (amended): for t, input, output ≥ 0, the time-ratio alpha is
`t / (t + t_comm_ref)` clamped to [0, 1] with
`t_comm_ref = (input + output) / (bandwidth_bits_per_sec / 8)` whenever
the bandwidth is positive, and `0.5` in the 0/0 case; when the bandwidth
is ≤ 0, `t_comm_ref = 0` (so alpha is 1 for positive t and 0.5 for
t = 0); a *missing* bandwidth is not treated as 0 but replaced by the
100 Mbps fallback. -/
theorem C5_time_ratio_alpha (t i o : ℚ) (ht : 0 ≤ t) (hi : 0 ≤ i) (ho : 0 ≤ o) :
    (∀ b : ℚ, 0 < b →
      (t + (i + o) / (b * 1000000 / 8) = 0 → calculate_alpha t i o b = 1/2) ∧
      (t + (i + o) / (b * 1000000 / 8) ≠ 0 →
        calculate_alpha t i o b = min 1 (max 0 (t / (t + (i + o) / (b * 1000000 / 8)))))) ∧
    (∀ b : ℚ, b ≤ 0 →
      (t = 0 → calculate_alpha t i o b = 1/2) ∧
      (t ≠ 0 → calculate_alpha t i o b = 1)) ∧
    nodeAlpha t i o none = calculate_alpha t i o 100 := by
  refine ⟨?_, ?_, rfl⟩
  · intro b hb
    have hbytes : 0 < b * 1000000 / 8 := by positivity
    constructor
    · intro h0
      simp only [calculate_alpha, if_pos hbytes, if_pos h0]
    · intro h0
      simp only [calculate_alpha, if_pos hbytes, if_neg h0]
  · intro b hb
    have hbytes : ¬ (0 < b * 1000000 / 8) := by
      intro hc
      nlinarith
    constructor
    · intro h0
      subst h0
      simp only [calculate_alpha, if_neg hbytes]
      norm_num
    · intro h0
      simp only [calculate_alpha, if_neg hbytes]
      rw [add_zero, if_neg h0, div_self h0]
      norm_num

/-- C5 witness: the three branches of `C5_time_ratio_alpha` applied at
concrete measurements. -/
theorem C5_witness :
    calculate_alpha 1 1 0 8 = min 1 (max 0 ((1:ℚ) / (1 + (1 + 0) / (8 * 1000000 / 8)))) ∧
    calculate_alpha 0 0 0 (-1) = 1/2 ∧
    nodeAlpha 1 1 0 none = calculate_alpha 1 1 0 100 :=
  ⟨((C5_time_ratio_alpha 1 1 0 (by norm_num) (by norm_num) (by norm_num)).1 8
      (by norm_num)).2 (by norm_num),
   ((C5_time_ratio_alpha 0 0 0 le_rfl le_rfl le_rfl).2.1 (-1) (by norm_num)).1 rfl,
   (C5_time_ratio_alpha 1 1 0 (by norm_num) (by norm_num) (by norm_num)).2.2⟩

/-- C8 counterexample: with zero execution time, nonzero transfer
`s_in + s_out = 1 > 0` and bandwidth `0`, the code returns the 0/0
default `0.5` (because `t_comm_ref` is set to 0 for non-positive
bandwidth), not the claimed `0.0`. -/
theorem C8_counterexample :
    calculate_alpha 0 1 0 0 = 1/2 ∧ (1/2 : ℚ) ≠ 0 := by
  constructor
  · norm_num [calculate_alpha]
  · norm_num

/-- C8 (amended): zero execution time with nonzero transfer yields alpha
exactly 0 provided the bandwidth is positive (for bandwidth ≤ 0 the code
returns the 0/0 default 0.5 instead, as the counterexample shows). -/
theorem C8_zero_exec_time (i o b : ℚ) (hio : 0 < i + o) (hb : 0 < b) :
    calculate_alpha 0 i o b = 0 := by
  have hbytes : 0 < b * 1000000 / 8 := by positivity
  have htc : 0 < (i + o) / (b * 1000000 / 8) := div_pos hio hbytes
  simp only [calculate_alpha, if_pos hbytes]
  rw [zero_add, if_neg (ne_of_gt htc), zero_div]
  norm_num

/-- C8 witness: zero execution time, 1-byte input, 8 Mbps. -/
theorem C8_witness : calculate_alpha 0 1 0 8 = 0 :=
  C8_zero_exec_time 1 0 8 (by norm_num) (by norm_num)

/-! ## Min-max normalization (C9) -/

lemma foldl_min_const (c : ℝ) :
    ∀ l : List (NodeType × ℝ), (∀ p ∈ l, p.2 = c) →
      l.foldl (fun a p => min a p.2) c = c := by
  intro l
  induction l with
  | nil => intro _; rfl
  | cons x xs ih =>
    intro h
    simp only [List.foldl_cons]
    rw [h x (List.mem_cons_self x xs), min_self]
    exact ih (fun p hp => h p (List.mem_cons_of_mem x hp))

lemma foldl_max_const (c : ℝ) :
    ∀ l : List (NodeType × ℝ), (∀ p ∈ l, p.2 = c) →
      l.foldl (fun a p => max a p.2) c = c := by
  intro l
  induction l with
  | nil => intro _; rfl
  | cons x xs ih =>
    intro h
    simp only [List.foldl_cons]
    rw [h x (List.mem_cons_self x xs), max_self]
    exact ih (fun p hp => h p (List.mem_cons_of_mem x hp))

/-- C9: whenever the relative-execution-time table is non-empty and all
its inverse-cost values coincide (so max = min), `estimate_p_comp_from_oi`
maps every available tier to exactly `0.5`. -/
theorem C9_minmax_uniform (oi : Option ℝ) (ns : List (NodeType × TierSpec))
    (e : NodeType × ℝ) (es : List (NodeType × ℝ))
    (h : execTimes oi ns = e :: es)
    (hall : ∀ p ∈ e :: es, p.2 = e.2) :
    estimate_p_comp_from_oi oi ns = (e :: es).map (fun p => (p.1, 1/2)) := by
  have he : ∀ p ∈ es, p.2 = e.2 := fun p hp => hall p (List.mem_cons_of_mem e hp)
  have hmin : es.foldl (fun a p => min a p.2) e.2 = e.2 := foldl_min_const e.2 es he
  have hmax : es.foldl (fun a p => max a p.2) e.2 = e.2 := foldl_max_const e.2 es he
  simp only [estimate_p_comp_from_oi, h, hmin, hmax, if_pos]

/-- Two tiers with identical averaged specs (rate 1, bandwidth 1,
ridge point 1). -/
def demoTierSpecs : List (NodeType × TierSpec) :=
  [(NodeType.DEVICE, ⟨1, 1, 1⟩), (NodeType.EDGE, ⟨1, 1, 1⟩)]

/-- The common inverse-cost value of the two identical demo tiers. -/
noncomputable def demoCost : ℝ :=
  calculate_alpha_sigmoid (some 1) (some 1) 2 / 1
    + (1 - calculate_alpha_sigmoid (some 1) (some 1) 2) / 1

/-- C9 witness: with two identical tiers both normalized values are
exactly 0.5. -/
theorem C9_witness :
    estimate_p_comp_from_oi (some 1) demoTierSpecs
      = [(NodeType.DEVICE, 1/2), (NodeType.EDGE, 1/2)] := by
  have h : execTimes (some 1) demoTierSpecs
      = [(NodeType.DEVICE, demoCost), (NodeType.EDGE, demoCost)] := by
    simp [execTimes, demoTierSpecs, demoCost]
  have hall : ∀ p ∈ [(NodeType.DEVICE, demoCost), (NodeType.EDGE, demoCost)],
      p.2 = (NodeType.DEVICE, demoCost).2 := by
    intro p hp
    rcases List.mem_cons.mp hp with h1 | h1
    · rw [h1]
    · rw [List.mem_singleton.mp h1]
  exact (C9_minmax_uniform (some 1) demoTierSpecs (NodeType.DEVICE, demoCost)
    [(NodeType.EDGE, demoCost)] h hall).trans (by simp)

/-! ## Profile alpha averaging (C6) -/

lemma abs_round3_sub (q : ℚ) : |round3 q - q| ≤ 1/2000 := by
  have h := abs_sub_round (q * 1000)
  have heq : round3 q - q = ((round (q * 1000) : ℤ) - q * 1000) / 1000 := by
    rw [round3]
    ring
  rw [heq, abs_div, abs_sub_comm]
  rw [abs_of_pos (by norm_num : (0:ℚ) < 1000)]
  linarith

lemma abs_round3R_sub (x : ℝ) : |round3R x - x| ≤ 1/2000 := by
  have h := abs_sub_round (x * 1000)
  have heq : round3R x - x = ((round (x * 1000) : ℤ) - x * 1000) / 1000 := by
    rw [round3R]
    ring
  rw [heq, abs_div, abs_sub_comm]
  rw [abs_of_pos (by norm_num : (0:ℝ) < 1000)]
  linarith

/-- Three measurements on the 8 Mbps node whose rounded per-node alphas
are 0.5, 0.5 and 0.501; their exact mean 1501/3000 is not representable
in three decimals. -/
def cmeas : List Measurement :=
  [⟨1, 1000000, 0, some 8⟩, ⟨1, 1000000, 0, some 8⟩, ⟨501, 499000000, 0, some 8⟩]

/-- C6 counterexample: the reported profile alpha for `cmeas` is `0.5`,
while the exact arithmetic mean of the stored per-node alphas is
`1501/3000 ≈ 0.5003` — the final 3-decimal rounding breaks exact
equality with the mean. -/
theorem C6_counterexample :
    profile_alpha cmeas = 1/2 ∧
    (node_alphas cmeas).sum / ((node_alphas cmeas).length : ℚ) = 1501/3000 ∧
    (1/2 : ℚ) ≠ 1501/3000 := by
  have hna : node_alphas cmeas = [1/2, 1/2, 501/1000] := by
    norm_num [node_alphas, cmeas, nodeAlpha, calculate_alpha, round3, round_eq]
  refine ⟨?_, ?_, by norm_num⟩
  · rw [profile_alpha, hna]
    norm_num [round3, round_eq]
  · rw [hna]
    norm_num

/-- C6 (amended): in both models the reported alpha is the arithmetic
mean of the stored per-tier (resp. per-node) alpha values rounded to
three decimals — hence within 1/2000 of the exact mean, but not the exact
mean itself — and each reported alpha is computed from a single model's
alpha table only. -/
theorem C6_profile_alpha (ms : List Measurement) (oi : ℝ)
    (ns : List (NodeType × TierSpec)) :
    profile_alpha ms = round3 ((node_alphas ms).sum / ((node_alphas ms).length : ℚ)) ∧
    |profile_alpha ms - (node_alphas ms).sum / ((node_alphas ms).length : ℚ)| ≤ 1/2000 ∧
    roofline_profile_alpha oi ns
      = round3R (((roofline_tier_alphas oi ns).map Prod.snd).sum
          / ((roofline_tier_alphas oi ns).length : ℝ)) ∧
    |roofline_profile_alpha oi ns
      - ((roofline_tier_alphas oi ns).map Prod.snd).sum
          / ((roofline_tier_alphas oi ns).length : ℝ)| ≤ 1/2000 :=
  ⟨rfl, abs_round3_sub _, rfl, abs_round3R_sub _⟩
